import Mathlib

set_option maxRecDepth 100000

/-!
Verification of the `sku` webhook receiver (src/main.go).

The program is a small HTTP service: a POST /webhook handler verifies a
base64-encoded HMAC-SHA256 signature of the raw request body against a
hardcoded shared secret (the constant `Signature = ""`), parses the JSON
body into line items, and for each line-item SKU calls `Services.Webhook`,
which scans the catalog returned by `Connection.List` and signals a match
through a non-nil error (the sentinel "Found wanted sku"), printing a
notification line on the first match.

The embedding below translates that logic into executable Lean functions:

* bytes are `List Nat` (each entry a byte value; the crypto primitives keep
  words reduced modulo 2^32 explicitly);
* `sha256`, `hmacSha256`, `base64Encode` embed the Go standard library
  primitives the handler calls (FIPS 180-4 SHA-256, RFC 2104 HMAC,
  standard padded base64), executably;
* `constantTimeCompare` embeds `crypto/subtle.ConstantTimeCompare` (which
  is what `hmac.Equal` calls), instrumented with the number of loop
  iterations it performs so that the constant-time property is statable;
* side effects (the `fmt.Println` notification) are modelled as the list of
  SKUs notified, returned alongside the result;
* the Fiber framework maps a handler that returns a non-nil error to an
  HTTP 500 response; `HandlerResult.error` stands for that outcome, distinct
  from `HandlerResult.status`.
-/

namespace Sku

/-! ## 32-bit word helpers (Nat reduced mod 2^32) -/

/-- Reduce a natural number to a 32-bit word. -/
def w32 (n : Nat) : Nat := n % 4294967296

/-- Rotate a 32-bit word right by `r` (0 < r < 32). -/
def rotr (r x : Nat) : Nat := w32 ((x >>> r) ||| (x <<< (32 - r)))

/-- SHA-256 choice function. -/
def ch (x y z : Nat) : Nat := (x &&& y) ^^^ ((x ^^^ 0xffffffff) &&& z)

/-- SHA-256 majority function. -/
def maj (x y z : Nat) : Nat := (x &&& y) ^^^ (x &&& z) ^^^ (y &&& z)

/-- SHA-256 big Sigma 0. -/
def bsig0 (x : Nat) : Nat := rotr 2 x ^^^ rotr 13 x ^^^ rotr 22 x

/-- SHA-256 big Sigma 1. -/
def bsig1 (x : Nat) : Nat := rotr 6 x ^^^ rotr 11 x ^^^ rotr 25 x

/-- SHA-256 small sigma 0. -/
def ssig0 (x : Nat) : Nat := rotr 7 x ^^^ rotr 18 x ^^^ (x >>> 3)

/-- SHA-256 small sigma 1. -/
def ssig1 (x : Nat) : Nat := rotr 17 x ^^^ rotr 19 x ^^^ (x >>> 10)

/-! ## SHA-256 (FIPS 180-4), as called through Go crypto/sha256 -/

/-- The 64 SHA-256 round constants (FIPS 180-4 section 4.2.2, here written
in decimal). -/
def roundK : List Nat :=
  [1116352408, 1899447441, 3049323471, 3921009573, 961987163, 1508970993,
   2453635748, 2870763221, 3624381080, 310598401, 607225278, 1426881987,
   1925078388, 2162078206, 2614888103, 3248222580, 3835390401, 4022224774,
   264347078, 604807628, 770255983, 1249150122, 1555081692, 1996064986,
   2554220882, 2821834349, 2952996808, 3210313671, 3336571891, 3584528711,
   113926993, 338241895, 666307205, 773529912, 1294757372, 1396182291,
   1695183700, 1986661051, 2177026350, 2456956037, 2730485921, 2820302411,
   3259730800, 3345764771, 3516065817, 3600352804, 4094571909, 275423344,
   430227734, 506948616, 659060556, 883997877, 958139571, 1322822218,
   1537002063, 1747873779, 1955562222, 2024104815, 2227730452, 2361852424,
   2428436474, 2756734187, 3204031479, 3329325298]

/-- The SHA-256 initial hash value (FIPS 180-4 section 5.3.3, in
decimal). -/
def initH : List Nat :=
  [1779033703, 3144134277, 1013904242, 2773480762,
   1359893119, 2600822924, 528734635, 1541459225]

/-- Big-endian bytes of a 64-bit length field. -/
def be64 (n : Nat) : List Nat :=
  [(n >>> 56) % 256, (n >>> 48) % 256, (n >>> 40) % 256, (n >>> 32) % 256,
   (n >>> 24) % 256, (n >>> 16) % 256, (n >>> 8) % 256, n % 256]

/-- Big-endian bytes of a 32-bit word. -/
def be32 (n : Nat) : List Nat :=
  [(n >>> 24) % 256, (n >>> 16) % 256, (n >>> 8) % 256, n % 256]

/-- SHA-256 padding: append 0x80, zeros to 56 mod 64, then the bit length
as 8 big-endian bytes. -/
def padMessage (msg : List Nat) : List Nat :=
  msg ++ [0x80] ++ List.replicate ((119 - msg.length % 64) % 64) 0
      ++ be64 (8 * msg.length)

/-- Split a byte list into 64-byte blocks, with explicit fuel so that the
recursion is structural (the fuel never runs out when it starts at the
length of the list). -/
def chunk64Fuel : Nat → List Nat → List (List Nat)
  | 0, _ => []
  | _ + 1, [] => []
  | fuel + 1, b :: rest =>
      (b :: rest).take 64 :: chunk64Fuel fuel ((b :: rest).drop 64)

/-- Split a byte list into 64-byte blocks. -/
def chunk64 (l : List Nat) : List (List Nat) := chunk64Fuel l.length l

/-- Group bytes four at a time into big-endian 32-bit words. -/
def toWords : List Nat → List Nat
  | b0 :: b1 :: b2 :: b3 :: rest =>
      ((b0 <<< 24) ||| (b1 <<< 16) ||| (b2 <<< 8) ||| b3) :: toWords rest
  | _ => []

/-- Extend 16 message words to the 64-entry message schedule. -/
def schedule : Nat → List Nat → List Nat
  | 0, w => w
  | k + 1, w =>
      let n := w.length
      schedule k (w ++ [w32 (ssig1 (w.getD (n - 2) 0) + w.getD (n - 7) 0 +
                             ssig0 (w.getD (n - 15) 0) + w.getD (n - 16) 0)])

/-- One SHA-256 round on the eight-word working state. -/
def round (st : Nat × Nat × Nat × Nat × Nat × Nat × Nat × Nat) (kw : Nat × Nat) :
    Nat × Nat × Nat × Nat × Nat × Nat × Nat × Nat :=
  let (a, b, c, d, e, f, g, h) := st
  let t1 := w32 (h + bsig1 e + ch e f g + kw.1 + kw.2)
  let t2 := w32 (bsig0 a + maj a b c)
  (w32 (t1 + t2), a, b, c, w32 (d + t1), e, f, g)

/-- The SHA-256 compression function on one 16-word block. -/
def compress (h : List Nat) (block : List Nat) : List Nat :=
  let ws := schedule 48 block
  let init := (h.getD 0 0, h.getD 1 0, h.getD 2 0, h.getD 3 0,
               h.getD 4 0, h.getD 5 0, h.getD 6 0, h.getD 7 0)
  let (a, b, c, d, e, f, g, hh) := (List.zip roundK ws).foldl round init
  [w32 (h.getD 0 0 + a), w32 (h.getD 1 0 + b), w32 (h.getD 2 0 + c),
   w32 (h.getD 3 0 + d), w32 (h.getD 4 0 + e), w32 (h.getD 5 0 + f),
   w32 (h.getD 6 0 + g), w32 (h.getD 7 0 + hh)]

/-- SHA-256 of a byte list, as a 32-byte digest. -/
def sha256 (msg : List Nat) : List Nat :=
  let blocks := (chunk64 (padMessage msg)).map toWords
  ((blocks.foldl compress initH).map be32).flatten

/-! ## HMAC-SHA256 (RFC 2104), as called through Go crypto/hmac -/

/-- Normalize the HMAC key: hash it if longer than the 64-byte block, then
pad with zeros to exactly 64 bytes. -/
def hmacKey (key : List Nat) : List Nat :=
  let k := if 64 < key.length then sha256 key else key
  k ++ List.replicate (64 - k.length) 0

/-- HMAC-SHA256 of a message under a key. -/
def hmacSha256 (key msg : List Nat) : List Nat :=
  let k0 := hmacKey key
  sha256 ((k0.map (fun b => b ^^^ 0x5c)) ++
          sha256 ((k0.map (fun b => b ^^^ 0x36)) ++ msg))

/-! ## Standard base64 (padded), as called through Go encoding/base64 -/

/-- The standard base64 alphabet as ASCII codes. -/
def b64Alphabet : List Nat :=
  ((List.range 26).map (· + 65)) ++ ((List.range 26).map (· + 97)) ++
  ((List.range 10).map (· + 48)) ++ [43, 47]

/-- The ASCII code of the base64 character for a 6-bit value. -/
def b64Char (n : Nat) : Nat := b64Alphabet.getD n 0

/-- Standard padded base64 encoding of a byte list, as ASCII codes
(61 is the pad character). -/
def base64Encode : List Nat → List Nat
  | [] => []
  | [b0] => [b64Char (b0 >>> 2), b64Char ((b0 % 4) <<< 4), 61, 61]
  | [b0, b1] => [b64Char (b0 >>> 2), b64Char (((b0 % 4) <<< 4) ||| (b1 >>> 4)),
                 b64Char ((b1 % 16) <<< 2), 61]
  | b0 :: b1 :: b2 :: rest =>
      b64Char (b0 >>> 2) :: b64Char (((b0 % 4) <<< 4) ||| (b1 >>> 4)) ::
      b64Char (((b1 % 16) <<< 2) ||| (b2 >>> 6)) :: b64Char (b2 % 64) ::
      base64Encode rest

/-! ## crypto/subtle.ConstantTimeCompare, which hmac.Equal calls

The Go loop is
  if len(x) != len(y) { return 0 }
  var v byte
  for i := 0; i < len(x); i++ { v |= x[i] ^ y[i] }
  return ConstantTimeByteEq(v, 0)
The embedding instruments it with the number of loop iterations performed,
so that the constant-time property (iteration count depends only on the
lengths, never on the contents) is statable. -/

/-- The accumulation loop of ConstantTimeCompare: folds `v |= x[i] ^ y[i]`
over both lists and counts its iterations. -/
def ctLoop : List Nat → List Nat → Nat → Nat × Nat
  | a :: xs, b :: ys, v =>
      let r := ctLoop xs ys (v ||| (a ^^^ b))
      (r.1, r.2 + 1)
  | _, _, v => (v, 0)

/-- crypto/subtle.ConstantTimeCompare, returning the Go result (1 for equal,
0 otherwise) together with the number of loop iterations performed. -/
def constantTimeCompare (x y : List Nat) : Nat × Nat :=
  if x.length = y.length then
    let r := ctLoop x y 0
    (if r.1 = 0 then 1 else 0, r.2)
  else (0, 0)

/-- crypto/hmac.Equal: true when ConstantTimeCompare returns 1. -/
def hmacEqual (x y : List Nat) : Bool := (constantTimeCompare x y).1 = 1

/-! ## The program under src/main.go -/

/-- The hardcoded shared secret of main: `const Signature = ""`, as its
(empty) byte sequence. -/
def Signature : List Nat := []

/-- The signature check block of the POST /webhook handler (main.go lines
151 to 160): compute HMAC-SHA256 of the raw body under the secret, encode
it in standard base64, and compare against the presented signature with
hmac.Equal. -/
def verifySignature (secret rawBody sig : List Nat) : Bool :=
  hmacEqual (base64Encode (hmacSha256 secret rawBody)) sig

/-- The state of the in-memory connection: the Go receiver is the empty
struct MemConnection\x7b\x7d, carrying no fields. -/
abbrev MemConnection : Type := Unit

/-- MemConnection.List (main.go lines 62 to 68): returns the fixed SKU
list and a nil error; written in state-passing style (result paired with
the receiver state after the call) to express that it mutates nothing. -/
def MemConnection.List (c : MemConnection) :
    (List String × Option String) × MemConnection :=
  ((["SKU2006-001", "SKU2006-002", "SKU2006-003"], none), c)

/-- A Connection is observed through its List method; a connection value is
modelled by that result: the SKU list together with the error value
(`none` stands for a nil error, `some e` for a non-nil error with text e). -/
abbrev ConnResult : Type := List String × Option String

/-- The connection value main obtains from MemDatabase.Connect. -/
def memConn : ConnResult := (MemConnection.List ()).1

/-- The scan loop inside Services.Webhook (main.go lines 109 to 115): on
the first catalog entry equal to the requested SKU it prints the
notification line and returns the sentinel error. The first component is
the returned error value, the second the list of SKUs a notification was
printed for. -/
def webhookScan (skus : List String) (sku : String) :
    Option String × List String :=
  match skus with
  | [] => (none, [])
  | s :: rest =>
      if s == sku then (some "Found wanted sku", [sku])
      else webhookScan rest sku

/-- Services.Webhook (main.go lines 106 to 118): calls List on the stored
connection, discarding the error component (`skus, _ := s.database.List()`),
then scans the returned SKU list. -/
def Services.Webhook (conn : ConnResult) (sku : String) :
    Option String × List String :=
  let skus := conn.1
  webhookScan skus sku

/-- The outcome of the Fiber handler: either an explicit status sent with
c.SendStatus, or a non-nil error returned to the framework (which the
default Fiber error handler maps to HTTP 500 — in particular never 200
and never 401). -/
inductive HandlerResult : Type where
  | status (code : Nat)
  | error (msg : String)
  deriving DecidableEq

/-- The dispatch loop of the handler (main.go lines 172 to 176): call
Services.Webhook on each line item in order, returning the first non-nil
error immediately; collects the notifications fired along the way. -/
def dispatchLoop (conn : ConnResult) :
    List String → Option String × List String
  | [] => (none, [])
  | item :: rest =>
      let r := Services.Webhook conn item
      match r.1 with
      | some e => (some e, r.2)
      | none =>
          let rr := dispatchLoop conn rest
          (rr.1, r.2 ++ rr.2)

/-- The POST /webhook handler (main.go lines 148 to 179). Inputs: the
configured secret, the connection, the bytes of the X-Shopify-Hmac-Sha256
header, the raw body bytes, and the result of BodyParser on the body
(`some items` gives the line-item SKUs in order; `none` is a parse error,
which the Go code returns to the framework). The result is the handler
outcome paired with the list of SKUs a notification was fired for. -/
def webhookHandler (secret : List Nat) (conn : ConnResult)
    (sigHeader rawBody : List Nat) (parsed : Option (List String)) :
    HandlerResult × List String :=
  if ¬ verifySignature secret rawBody sigHeader then
    (HandlerResult.status 401, [])
  else
    match parsed with
    | none => (HandlerResult.error "body parser failed", [])
    | some items =>
        let r := dispatchLoop conn items
        match r.1 with
        | some e => (HandlerResult.error e, r.2)
        | none => (HandlerResult.status 200, r.2)

/-! ## Sanity anchors: the embedded primitives reproduce published test
vectors (FIPS 180-4 / RFC 4231 style values, computed independently). -/

/-- SHA-256 of the empty message is the well-known digest
e3b0c442...7852b855. -/
theorem sha256_empty_vector :
    sha256 [] =
      [227, 176, 196, 66, 152, 252, 28, 20, 154, 251, 244, 200, 153, 111,
       185, 36, 39, 174, 65, 228, 100, 155, 147, 76, 164, 149, 153, 27, 120,
       82, 184, 85] := by decide

/-- Base64 of HMAC-SHA256 with empty key and empty message is the ASCII of
thNnmggU2ex3L5XXeMNfxf8Wl8STcVZTxscSFEKSxa0= . -/
theorem hmac_empty_vector :
    base64Encode (hmacSha256 [] []) =
      [116, 104, 78, 110, 109, 103, 103, 85, 50, 101, 120, 51, 76, 53, 88,
       88, 101, 77, 78, 102, 120, 102, 56, 87, 108, 56, 83, 84, 99, 86, 90,
       84, 120, 115, 99, 83, 70, 69, 75, 83, 120, 97, 48, 61] := by decide

/-! ## Helper lemmas -/

/-- A bitwise or of naturals is zero exactly when both sides are. -/
theorem lor_eq_zero_iff (a b : Nat) : a ||| b = 0 ↔ a = 0 ∧ b = 0 := by
  constructor
  · intro h
    have hab : ∀ i, a.testBit i = false ∧ b.testBit i = false := by
      intro i
      have hx := congrArg (fun n => Nat.testBit n i) h
      simp [Nat.testBit_lor] at hx
      exact hx
    constructor
    · exact Nat.eq_of_testBit_eq (fun i => by simp [(hab i).1])
    · exact Nat.eq_of_testBit_eq (fun i => by simp [(hab i).2])
  · rintro ⟨rfl, rfl⟩
    rfl

/-- The accumulator of the ConstantTimeCompare loop ends at zero exactly
when it started at zero and the two (equal-length) lists are equal. -/
theorem ctLoop_fst (x : List Nat) : ∀ (y : List Nat) (v : Nat),
    x.length = y.length → ((ctLoop x y v).1 = 0 ↔ v = 0 ∧ x = y) := by
  induction x with
  | nil =>
      intro y v h
      cases y with
      | nil => simp [ctLoop]
      | cons b ys => simp at h
  | cons a xs ih =>
      intro y v h
      cases y with
      | nil => simp at h
      | cons b ys =>
          have hlen : xs.length = ys.length := by simpa using h
          simp only [ctLoop]
          rw [ih ys (v ||| (a ^^^ b)) hlen, lor_eq_zero_iff,
            Nat.xor_eq_zero, List.cons.injEq]
          tauto

/-- The ConstantTimeCompare loop performs one iteration per byte when the
lengths agree. -/
theorem ctLoop_snd (x : List Nat) : ∀ (y : List Nat) (v : Nat),
    x.length = y.length → (ctLoop x y v).2 = x.length := by
  induction x with
  | nil =>
      intro y v h
      cases y with
      | nil => simp [ctLoop]
      | cons b ys => simp at h
  | cons a xs ih =>
      intro y v h
      cases y with
      | nil => simp at h
      | cons b ys =>
          have hlen : xs.length = ys.length := by simpa using h
          simp [ctLoop, ih ys _ hlen]

/-- ConstantTimeCompare returns 1 exactly on equal inputs. -/
theorem constantTimeCompare_fst (x y : List Nat) :
    (constantTimeCompare x y).1 = 1 ↔ x = y := by
  unfold constantTimeCompare
  by_cases h : x.length = y.length
  · simp only [h, if_true]
    by_cases h0 : (ctLoop x y 0).1 = 0
    · have hx := (ctLoop_fst x y 0 h).mp h0
      rw [if_pos h0]
      simp [hx.2]
    · have hx : ¬ x = y := fun he => h0 ((ctLoop_fst x y 0 h).mpr ⟨rfl, he⟩)
      simp [h0, hx]
  · have hx : ¬ x = y := fun he => h (by rw [he])
    simp [h, hx]

/-- The iteration count of ConstantTimeCompare depends only on the input
lengths. -/
theorem constantTimeCompare_snd (x y : List Nat) :
    (constantTimeCompare x y).2 =
      if x.length = y.length then x.length else 0 := by
  unfold constantTimeCompare
  by_cases h : x.length = y.length
  · simp [h, ctLoop_snd x y 0 h]
  · simp [h]

/-- hmac.Equal decides equality of byte lists. -/
theorem hmacEqual_iff (x y : List Nat) : hmacEqual x y = true ↔ x = y := by
  rw [hmacEqual, decide_eq_true_iff]
  exact constantTimeCompare_fst x y

/-- hmac.Equal accepts identical inputs. -/
theorem hmacEqual_self (x : List Nat) : hmacEqual x x = true :=
  (hmacEqual_iff x x).mpr rfl

/-- The correctly computed signature for a body always verifies. -/
theorem verifySignature_correct (secret body : List Nat) :
    verifySignature secret body (base64Encode (hmacSha256 secret body)) =
      true := by
  rw [verifySignature]
  exact hmacEqual_self _

/-- Any other presented signature fails verification. -/
theorem verifySignature_wrong (secret body sig : List Nat)
    (h : sig ≠ base64Encode (hmacSha256 secret body)) :
    verifySignature secret body sig = false := by
  rw [verifySignature]
  cases hq : hmacEqual (base64Encode (hmacSha256 secret body)) sig
  · rfl
  · exact absurd ((hmacEqual_iff _ _).mp hq).symm h

/-- Closed form of the scan loop of Services.Webhook: the sentinel error
and a single notification on membership, a nil error and no notification
otherwise. -/
theorem webhookScan_eq (skus : List String) (sku : String) :
    webhookScan skus sku =
      if sku ∈ skus then (some "Found wanted sku", [sku]) else (none, []) := by
  induction skus with
  | nil => simp [webhookScan]
  | cons s rest ih =>
      by_cases hs : s = sku
      · subst hs
        simp [webhookScan]
      · have h1 : (s == sku) = false := by simpa using hs
        have hs2 : ¬ sku = s := fun he => hs he.symm
        simp [webhookScan, h1, ih, hs2]

/-- Closed form of Services.Webhook over an arbitrary connection value. -/
theorem servicesWebhook_eq (skus : List String) (e : Option String)
    (sku : String) :
    Services.Webhook (skus, e) sku =
      if sku ∈ skus then (some "Found wanted sku", [sku]) else (none, []) :=
  webhookScan_eq skus sku

/-- The dispatch loop stops at the first line item in the catalog, with a
single notification. -/
theorem dispatchLoop_cons_mem (conn : ConnResult) (item : String)
    (rest : List String) (h : item ∈ conn.1) :
    dispatchLoop conn (item :: rest) = (some "Found wanted sku", [item]) := by
  obtain ⟨skus, e⟩ := conn
  have h1 : item ∈ skus := h
  simp [dispatchLoop, servicesWebhook_eq, h1]

/-- The dispatch loop skips a line item absent from the catalog. -/
theorem dispatchLoop_cons_not_mem (conn : ConnResult) (item : String)
    (rest : List String) (h : item ∉ conn.1) :
    dispatchLoop conn (item :: rest) = dispatchLoop conn rest := by
  obtain ⟨skus, e⟩ := conn
  have h1 : item ∉ skus := h
  simp [dispatchLoop, servicesWebhook_eq, h1]

/-- On a correctly signed request with a parsed body, the handler result is
determined by the dispatch loop: HTTP 200 on a nil error, the returned
error otherwise, with the notifications the loop fired. -/
theorem webhookHandler_verified (secret : List Nat) (conn : ConnResult)
    (body : List Nat) (items : List String) :
    webhookHandler secret conn (base64Encode (hmacSha256 secret body)) body
        (some items) =
      ((dispatchLoop conn items).1.elim (HandlerResult.status 200)
         HandlerResult.error,
       (dispatchLoop conn items).2) := by
  unfold webhookHandler
  rw [if_neg (by simp [verifySignature_correct secret body])]
  cases hd : (dispatchLoop conn items).1 <;> simp [hd]

/-- The raw bytes of the JSON body used by the end-to-end scenario of the
spec, namely the ASCII of
\x7b"line_items":[\x7b"sku":"SKU2006-002"\x7d]\x7d . -/
def exampleBody : List Nat :=
  [123, 34, 108, 105, 110, 101, 95, 105, 116, 101, 109, 115, 34, 58, 91,
   123, 34, 115, 107, 117, 34, 58, 34, 83, 75, 85, 50, 48, 48, 54, 45, 48,
   48, 50, 34, 125, 93, 125]

/-- The correctly computed signature for exampleBody under the hardcoded
secret. -/
def exampleSig : List Nat := base64Encode (hmacSha256 Signature exampleBody)

/-! ## The claims -/

/-- Claim C1: every POST /webhook request whose presented
X-Shopify-Hmac-Sha256 value differs from the base64-encoded HMAC-SHA256 of
the raw body under the configured shared secret is answered with HTTP 401,
and zero notification side effects fire (the dispatch stage, and with it
Services.Webhook, is never reached). -/
theorem c1_bad_signature_401_no_dispatch (conn : ConnResult)
    (sig body : List Nat) (parsed : Option (List String))
    (h : sig ≠ base64Encode (hmacSha256 Signature body)) :
    webhookHandler Signature conn sig body parsed =
      (HandlerResult.status 401, []) := by
  unfold webhookHandler
  rw [if_pos (by simp [verifySignature_wrong Signature body sig h])]

/-- Witness for C1: the empty header on the empty body is not the correct
signature, and the handler answers 401 with no notification. -/
theorem c1_witness :
    (([] : List Nat) ≠ base64Encode (hmacSha256 Signature [])) ∧
    webhookHandler Signature memConn [] [] (some ["SKU2006-002"]) =
      (HandlerResult.status 401, []) := by
  have h : ([] : List Nat) ≠ base64Encode (hmacSha256 Signature []) := by
    decide
  exact ⟨h,
    c1_bad_signature_401_no_dispatch memConn [] [] (some ["SKU2006-002"]) h⟩

/-- Claim C2: for all bodies and secrets, verification accepts exactly the
base64-encoded HMAC-SHA256 of the body under the secret: that signature
verifies, and every different signature fails. -/
theorem c2_verify_iff_correct_signature (secret body sig : List Nat) :
    verifySignature secret body (base64Encode (hmacSha256 secret body)) =
        true ∧
    (sig ≠ base64Encode (hmacSha256 secret body) →
      verifySignature secret body sig = false) :=
  ⟨verifySignature_correct secret body,
   fun h => verifySignature_wrong secret body sig h⟩

/-- Witness for C2: with the empty secret and empty body, the correct
signature verifies and the one-byte signature "a" does not. -/
theorem c2_witness :
    (([97] : List Nat) ≠ base64Encode (hmacSha256 [] [])) ∧
    verifySignature [] [] (base64Encode (hmacSha256 [] [])) = true ∧
    verifySignature [] [] [97] = false := by
  have h : ([97] : List Nat) ≠ base64Encode (hmacSha256 [] []) := by decide
  exact ⟨h, (c2_verify_iff_correct_signature [] [] [97]).1,
    (c2_verify_iff_correct_signature [] [] [97]).2 h⟩

/-- Claim C3 is refuted: the correctly signed end-to-end request with body
\x7b"line_items":[\x7b"sku":"SKU2006-002"\x7d]\x7d fires one notification
for SKU2006-002 but the handler returns the sentinel error (which Fiber
maps to HTTP 500), not HTTP 200. -/
theorem c3_counterexample :
    webhookHandler Signature memConn exampleSig exampleBody
        (some ["SKU2006-002"]) =
      (HandlerResult.error "Found wanted sku", ["SKU2006-002"]) ∧
    (webhookHandler Signature memConn exampleSig exampleBody
        (some ["SKU2006-002"])).1 ≠ HandlerResult.status 200 := by
  have he : exampleSig = base64Encode (hmacSha256 Signature exampleBody) :=
    rfl
  have h1 : webhookHandler Signature memConn exampleSig exampleBody
      (some ["SKU2006-002"]) =
      (HandlerResult.error "Found wanted sku", ["SKU2006-002"]) := by
    rw [he, webhookHandler_verified,
      dispatchLoop_cons_mem memConn "SKU2006-002" [] (by decide)]
    rfl
  exact ⟨h1, by rw [h1]; simp⟩

/-- Claim C3 (amended): a verified, parsed request is answered with HTTP
200 exactly when the dispatch loop returned a nil error, that is, when no
line-item SKU matched the catalog; the end-to-end request for the catalog
SKU SKU2006-002 fires exactly one notification for it but is answered with
the sentinel error (HTTP 500 through the framework), not 200. -/
theorem c3_amended_200_iff_no_match :
    (∀ (conn : ConnResult) (items : List String) (body : List Nat),
      (webhookHandler Signature conn
          (base64Encode (hmacSha256 Signature body)) body (some items)).1 =
        HandlerResult.status 200 ↔ (dispatchLoop conn items).1 = none) ∧
    webhookHandler Signature memConn exampleSig exampleBody
        (some ["SKU2006-002"]) =
      (HandlerResult.error "Found wanted sku", ["SKU2006-002"]) := by
  constructor
  · intro conn items body
    rw [webhookHandler_verified]
    cases hd : (dispatchLoop conn items).1 <;> simp [hd]
  · rw [show exampleSig = base64Encode (hmacSha256 Signature exampleBody)
      from rfl, webhookHandler_verified,
      dispatchLoop_cons_mem memConn "SKU2006-002" [] (by decide)]
    rfl

/-- Claim C4 is refuted: dispatching the two distinct catalog SKUs
SKU2006-001 and SKU2006-002 fires one notification, not two — the loop
stops at the first match. -/
theorem c4_counterexample :
    dispatchLoop memConn ["SKU2006-001", "SKU2006-002"] =
      (some "Found wanted sku", ["SKU2006-001"]) ∧
    (dispatchLoop memConn ["SKU2006-001", "SKU2006-002"]).2.length ≠ 2 := by
  decide

/-- Claim C4 (amended): for a Purchase Event whose first line item is a
catalog SKU, dispatch short-circuits at that first match: exactly one
notification fires, for the first item, and no further line item is
processed — even when later line items are also catalog SKUs. -/
theorem c4_amended_first_match_short_circuits (conn : ConnResult)
    (s1 s2 : String) (rest : List String) (h : s1 ∈ conn.1) :
    dispatchLoop conn (s1 :: s2 :: rest) = (some "Found wanted sku", [s1]) :=
  dispatchLoop_cons_mem conn s1 (s2 :: rest) h

/-- Witness for the amended C4: on the in-memory catalog, dispatching
[SKU2006-001, SKU2006-002] notifies only SKU2006-001. -/
theorem c4_witness :
    ("SKU2006-001" ∈ memConn.1) ∧
    dispatchLoop memConn ["SKU2006-001", "SKU2006-002"] =
      (some "Found wanted sku", ["SKU2006-001"]) := by
  have h : "SKU2006-001" ∈ memConn.1 := by decide
  exact ⟨h,
    c4_amended_first_match_short_circuits memConn "SKU2006-001" "SKU2006-002"
      [] h⟩

/-- Claim C5 is refuted: with a connection whose List call reports a
non-nil error (catalog unavailable, empty list returned), Services.Webhook
returns a nil error and no notification — and a verified request for a
catalog SKU is answered with HTTP 200, exactly as if the catalog were
empty; no server error is surfaced. -/
theorem c5_counterexample :
    Services.Webhook ([], some "catalog backend unavailable") "SKU2006-001" =
      (none, []) ∧
    webhookHandler Signature ([], some "catalog backend unavailable")
        (base64Encode (hmacSha256 Signature [])) [] (some ["SKU2006-001"]) =
      (HandlerResult.status 200, []) := by
  refine ⟨rfl, ?_⟩
  rw [webhookHandler_verified]
  rfl

/-- Claim C5 (amended): the error component returned by Connection.List is
discarded by Services.Webhook (`skus, _ := s.database.List()`): the
outcome, at the Webhook level and at the dispatch-loop level, is the same
as for a nil error with the same SKU list, and an unavailable catalog that
returns an empty list makes every lookup succeed with no notification
rather than fail. -/
theorem c5_amended_list_error_ignored (skus : List String)
    (e : Option String) (sku : String) (items : List String) :
    Services.Webhook (skus, e) sku = Services.Webhook (skus, none) sku ∧
    dispatchLoop (skus, e) items = dispatchLoop (skus, none) items ∧
    Services.Webhook ([], e) sku = (none, []) := by
  refine ⟨rfl, ?_, rfl⟩
  induction items with
  | nil => rfl
  | cons it rest ih =>
      by_cases hm : it ∈ skus <;>
        simp [dispatchLoop, servicesWebhook_eq, hm, ih]

/-- Claim C6: dispatching the line items [SKU2006-001, SKU-UNKNOWN]
against a catalog that contains SKU2006-001 (and not the unknown SKU)
fires exactly one notification, for SKU2006-001, and none for the
non-matching SKU. -/
theorem c6_exactly_one_notification (skus : List String) (e : Option String)
    (h1 : "SKU2006-001" ∈ skus) (h2 : "SKU-UNKNOWN" ∉ skus) :
    dispatchLoop (skus, e) ["SKU2006-001", "SKU-UNKNOWN"] =
      (some "Found wanted sku", ["SKU2006-001"]) :=
  dispatchLoop_cons_mem (skus, e) "SKU2006-001" ["SKU-UNKNOWN"] h1

/-- Witness for C6 on the in-memory catalog. -/
theorem c6_witness :
    ("SKU2006-001" ∈ memConn.1) ∧ ("SKU-UNKNOWN" ∉ memConn.1) ∧
    dispatchLoop memConn ["SKU2006-001", "SKU-UNKNOWN"] =
      (some "Found wanted sku", ["SKU2006-001"]) := by
  have h1 : "SKU2006-001" ∈ memConn.1 := by decide
  have h2 : "SKU-UNKNOWN" ∉ memConn.1 := by decide
  exact ⟨h1, h2, c6_exactly_one_notification memConn.1 memConn.2 h1 h2⟩

/-- Claim C7: a verified, well-formed request whose line_items sequence is
empty fires zero notifications and is answered with HTTP 200. -/
theorem c7_empty_line_items_200 (conn : ConnResult) (body : List Nat) :
    webhookHandler Signature conn (base64Encode (hmacSha256 Signature body))
        body (some []) = (HandlerResult.status 200, []) := by
  rw [webhookHandler_verified]
  rfl

/-- Claim C8: Services.Webhook returns a non-nil error — the sentinel
"Found wanted sku" — exactly when the requested SKU equals some element of
the list returned by Connection.List, with exactly one notification in
that case; it returns a nil error and no notification exactly when no
catalog entry matches. -/
theorem c8_sentinel_error_iff_match (skus : List String) (e : Option String)
    (sku : String) :
    Services.Webhook (skus, e) sku =
      if sku ∈ skus then (some "Found wanted sku", [sku]) else (none, []) :=
  servicesWebhook_eq skus e sku

/-- Claim C9: MemConnection.List always returns the fixed three-SKU list
and a nil error, leaves its receiver state unchanged, and a repeated call
returns the same result — the read is deterministic, idempotent and
side-effect free, and catalog unavailability is unreachable in this
build. -/
theorem c9_memconnection_list_pure (c : MemConnection) :
    MemConnection.List c =
      ((["SKU2006-001", "SKU2006-002", "SKU2006-003"], none), c) ∧
    (MemConnection.List c).2 = c ∧
    (MemConnection.List (MemConnection.List c).2).1 =
      (MemConnection.List c).1 :=
  ⟨rfl, rfl, rfl⟩

/-- Claim C10: the verifier compares the encoded digest against the
presented signature with hmac.Equal, whose loop count depends only on the
lengths of the two inputs — never on how many leading bytes agree — and
which decides exact equality. -/
theorem c10_constant_time_comparison :
    (∀ secret body sig : List Nat,
       verifySignature secret body sig =
         hmacEqual (base64Encode (hmacSha256 secret body)) sig) ∧
    (∀ x y u v : List Nat, x.length = u.length → y.length = v.length →
       (constantTimeCompare x y).2 = (constantTimeCompare u v).2) ∧
    (∀ x y : List Nat, hmacEqual x y = true ↔ x = y) := by
  refine ⟨fun _ _ _ => rfl, ?_, hmacEqual_iff⟩
  intro x y u v hxu hyv
  rw [constantTimeCompare_snd, constantTimeCompare_snd, hxu, hyv]

/-- Witness for C10: a pair with one matching leading byte and a pair with
none take the same number of comparison-loop iterations. -/
theorem c10_witness :
    (([0, 0] : List Nat).length = ([1, 2] : List Nat).length) ∧
    (([0, 9] : List Nat).length = ([3, 4] : List Nat).length) ∧
    (constantTimeCompare [0, 0] [0, 9]).2 =
      (constantTimeCompare [1, 2] [3, 4]).2 :=
  ⟨rfl, rfl,
   c10_constant_time_comparison.2.1 [0, 0] [0, 9] [1, 2] [3, 4] rfl rfl⟩

end Sku
